import Mathlib

/-
  Verification development for the Intrinsics PF2e Level-Up Wizard module.

  The definitions below are shallow embeddings of the module's JavaScript
  source files:
    - src/scripts/helpers/spell-slot-progression.js
    - src/scripts/helpers/feat-helpers.js  (feat filtering, prerequisite
      checking, ability-boost detection)
    - src/scripts/helpers/variant-rules-helpers.js
    - src/scripts/build-plan-manager.js
  JavaScript objects used as rank/level maps are embedded as association
  lists; absent keys read as 0 via `slotCount` (mirroring `m[k] || 0`).
  Ambient state (the `game.settings` reads) is passed as explicit
  parameters.  Theorems about each specification claim follow the
  definitions.
-/

/-- A JavaScript object mapping spell ranks to slot counts
(`{ 1: 3, 2: 2 }`), embedded as an association list in key order. -/
abbrev SlotMap := List (Nat × Nat)

/-- Read a rank's count from a slot map; absent ranks read as 0,
mirroring the JavaScript `slots[rank] || 0`. -/
def slotCount (m : SlotMap) (rank : Nat) : Nat :=
  (m.lookup rank).getD 0

/-- One entry of spell-slot-progression.js `CLASS_PROGRESSIONS`:
`spellSlots` maps level to a rank-to-count map; `learningRule` is
`"prepared"`, `"spontaneous"` or `"auto"`; `isWaveCaster` and
`hasDualSpellLists` default to absent (false); `apparitionSlots` is only
populated for the animist. -/
structure ClassProgression where
  spellSlots : List (Nat × SlotMap)
  apparitionSlots : List (Nat × SlotMap) := []
  learningRule : String
  isWaveCaster : Bool := false
  hasDualSpellLists : Bool := false
deriving DecidableEq

/-- The `'wizard'` entry of `CLASS_PROGRESSIONS` in spell-slot-progression.js. -/
def wizardProgression : ClassProgression where
  spellSlots := [
    (1, [(1, 2)]),
    (2, [(1, 3)]),
    (3, [(1, 3), (2, 2)]),
    (4, [(1, 3), (2, 3)]),
    (5, [(1, 3), (2, 3), (3, 2)]),
    (6, [(1, 3), (2, 3), (3, 3)]),
    (7, [(1, 3), (2, 3), (3, 3), (4, 2)]),
    (8, [(1, 3), (2, 3), (3, 3), (4, 3)]),
    (9, [(1, 3), (2, 3), (3, 3), (4, 3), (5, 2)]),
    (10, [(1, 3), (2, 3), (3, 3), (4, 3), (5, 3)]),
    (11, [(1, 3), (2, 3), (3, 3), (4, 3), (5, 3), (6, 2)]),
    (12, [(1, 3), (2, 3), (3, 3), (4, 3), (5, 3), (6, 3)]),
    (13, [(1, 3), (2, 3), (3, 3), (4, 3), (5, 3), (6, 3), (7, 2)]),
    (14, [(1, 3), (2, 3), (3, 3), (4, 3), (5, 3), (6, 3), (7, 3)]),
    (15, [(1, 3), (2, 3), (3, 3), (4, 3), (5, 3), (6, 3), (7, 3), (8, 2)]),
    (16, [(1, 3), (2, 3), (3, 3), (4, 3), (5, 3), (6, 3), (7, 3), (8, 3)]),
    (17, [(1, 3), (2, 3), (3, 3), (4, 3), (5, 3), (6, 3), (7, 3), (8, 3), (9, 2)]),
    (18, [(1, 3), (2, 3), (3, 3), (4, 3), (5, 3), (6, 3), (7, 3), (8, 3), (9, 3)]),
    (19, [(1, 3), (2, 3), (3, 3), (4, 3), (5, 3), (6, 3), (7, 3), (8, 3), (9, 3), (10, 1)]),
    (20, [(1, 3), (2, 3), (3, 3), (4, 3), (5, 3), (6, 3), (7, 3), (8, 3), (9, 3), (10, 1)])]
  learningRule := "prepared"

/-- The `'sorcerer'` entry of `CLASS_PROGRESSIONS` in spell-slot-progression.js. -/
def sorcererProgression : ClassProgression where
  spellSlots := [
    (1, [(1, 3)]),
    (2, [(1, 4)]),
    (3, [(1, 4), (2, 3)]),
    (4, [(1, 4), (2, 4)]),
    (5, [(1, 4), (2, 4), (3, 3)]),
    (6, [(1, 4), (2, 4), (3, 4)]),
    (7, [(1, 4), (2, 4), (3, 4), (4, 3)]),
    (8, [(1, 4), (2, 4), (3, 4), (4, 4)]),
    (9, [(1, 4), (2, 4), (3, 4), (4, 4), (5, 3)]),
    (10, [(1, 4), (2, 4), (3, 4), (4, 4), (5, 4)]),
    (11, [(1, 4), (2, 4), (3, 4), (4, 4), (5, 4), (6, 3)]),
    (12, [(1, 4), (2, 4), (3, 4), (4, 4), (5, 4), (6, 4)]),
    (13, [(1, 4), (2, 4), (3, 4), (4, 4), (5, 4), (6, 4), (7, 3)]),
    (14, [(1, 4), (2, 4), (3, 4), (4, 4), (5, 4), (6, 4), (7, 4)]),
    (15, [(1, 4), (2, 4), (3, 4), (4, 4), (5, 4), (6, 4), (7, 4), (8, 3)]),
    (16, [(1, 4), (2, 4), (3, 4), (4, 4), (5, 4), (6, 4), (7, 4), (8, 4)]),
    (17, [(1, 4), (2, 4), (3, 4), (4, 4), (5, 4), (6, 4), (7, 4), (8, 4), (9, 3)]),
    (18, [(1, 4), (2, 4), (3, 4), (4, 4), (5, 4), (6, 4), (7, 4), (8, 4), (9, 4)]),
    (19, [(1, 4), (2, 4), (3, 4), (4, 4), (5, 4), (6, 4), (7, 4), (8, 4), (9, 4), (10, 1)]),
    (20, [(1, 4), (2, 4), (3, 4), (4, 4), (5, 4), (6, 4), (7, 4), (8, 4), (9, 4), (10, 1)])]
  learningRule := "spontaneous"

/-- The `'cleric'` entry of `CLASS_PROGRESSIONS` in spell-slot-progression.js. -/
def clericProgression : ClassProgression where
  spellSlots := [
    (1, [(1, 2)]),
    (2, [(1, 3)]),
    (3, [(1, 3), (2, 2)]),
    (4, [(1, 3), (2, 3)]),
    (5, [(1, 3), (2, 3), (3, 2)]),
    (6, [(1, 3), (2, 3), (3, 3)]),
    (7, [(1, 3), (2, 3), (3, 3), (4, 2)]),
    (8, [(1, 3), (2, 3), (3, 3), (4, 3)]),
    (9, [(1, 3), (2, 3), (3, 3), (4, 3), (5, 2)]),
    (10, [(1, 3), (2, 3), (3, 3), (4, 3), (5, 3)]),
    (11, [(1, 3), (2, 3), (3, 3), (4, 3), (5, 3), (6, 2)]),
    (12, [(1, 3), (2, 3), (3, 3), (4, 3), (5, 3), (6, 3)]),
    (13, [(1, 3), (2, 3), (3, 3), (4, 3), (5, 3), (6, 3), (7, 2)]),
    (14, [(1, 3), (2, 3), (3, 3), (4, 3), (5, 3), (6, 3), (7, 3)]),
    (15, [(1, 3), (2, 3), (3, 3), (4, 3), (5, 3), (6, 3), (7, 3), (8, 2)]),
    (16, [(1, 3), (2, 3), (3, 3), (4, 3), (5, 3), (6, 3), (7, 3), (8, 3)]),
    (17, [(1, 3), (2, 3), (3, 3), (4, 3), (5, 3), (6, 3), (7, 3), (8, 3), (9, 2)]),
    (18, [(1, 3), (2, 3), (3, 3), (4, 3), (5, 3), (6, 3), (7, 3), (8, 3), (9, 3)]),
    (19, [(1, 3), (2, 3), (3, 3), (4, 3), (5, 3), (6, 3), (7, 3), (8, 3), (9, 3), (10, 1)]),
    (20, [(1, 3), (2, 3), (3, 3), (4, 3), (5, 3), (6, 3), (7, 3), (8, 3), (9, 3), (10, 1)])]
  learningRule := "auto"

/-- The `'druid'` entry of `CLASS_PROGRESSIONS` in spell-slot-progression.js. -/
def druidProgression : ClassProgression where
  spellSlots := [
    (1, [(1, 2)]),
    (2, [(1, 3)]),
    (3, [(1, 3), (2, 2)]),
    (4, [(1, 3), (2, 3)]),
    (5, [(1, 3), (2, 3), (3, 2)]),
    (6, [(1, 3), (2, 3), (3, 3)]),
    (7, [(1, 3), (2, 3), (3, 3), (4, 2)]),
    (8, [(1, 3), (2, 3), (3, 3), (4, 3)]),
    (9, [(1, 3), (2, 3), (3, 3), (4, 3), (5, 2)]),
    (10, [(1, 3), (2, 3), (3, 3), (4, 3), (5, 3)]),
    (11, [(1, 3), (2, 3), (3, 3), (4, 3), (5, 3), (6, 2)]),
    (12, [(1, 3), (2, 3), (3, 3), (4, 3), (5, 3), (6, 3)]),
    (13, [(1, 3), (2, 3), (3, 3), (4, 3), (5, 3), (6, 3), (7, 2)]),
    (14, [(1, 3), (2, 3), (3, 3), (4, 3), (5, 3), (6, 3), (7, 3)]),
    (15, [(1, 3), (2, 3), (3, 3), (4, 3), (5, 3), (6, 3), (7, 3), (8, 2)]),
    (16, [(1, 3), (2, 3), (3, 3), (4, 3), (5, 3), (6, 3), (7, 3), (8, 3)]),
    (17, [(1, 3), (2, 3), (3, 3), (4, 3), (5, 3), (6, 3), (7, 3), (8, 3), (9, 2)]),
    (18, [(1, 3), (2, 3), (3, 3), (4, 3), (5, 3), (6, 3), (7, 3), (8, 3), (9, 3)]),
    (19, [(1, 3), (2, 3), (3, 3), (4, 3), (5, 3), (6, 3), (7, 3), (8, 3), (9, 3), (10, 1)]),
    (20, [(1, 3), (2, 3), (3, 3), (4, 3), (5, 3), (6, 3), (7, 3), (8, 3), (9, 3), (10, 1)])]
  learningRule := "auto"

/-- The `'bard'` entry of `CLASS_PROGRESSIONS` in spell-slot-progression.js. -/
def bardProgression : ClassProgression where
  spellSlots := [
    (1, [(1, 2)]),
    (2, [(1, 3)]),
    (3, [(1, 3), (2, 2)]),
    (4, [(1, 3), (2, 3)]),
    (5, [(1, 3), (2, 3), (3, 2)]),
    (6, [(1, 3), (2, 3), (3, 3)]),
    (7, [(1, 3), (2, 3), (3, 3), (4, 2)]),
    (8, [(1, 3), (2, 3), (3, 3), (4, 3)]),
    (9, [(1, 3), (2, 3), (3, 3), (4, 3), (5, 2)]),
    (10, [(1, 3), (2, 3), (3, 3), (4, 3), (5, 3)]),
    (11, [(1, 3), (2, 3), (3, 3), (4, 3), (5, 3), (6, 2)]),
    (12, [(1, 3), (2, 3), (3, 3), (4, 3), (5, 3), (6, 3)]),
    (13, [(1, 3), (2, 3), (3, 3), (4, 3), (5, 3), (6, 3), (7, 2)]),
    (14, [(1, 3), (2, 3), (3, 3), (4, 3), (5, 3), (6, 3), (7, 3)]),
    (15, [(1, 3), (2, 3), (3, 3), (4, 3), (5, 3), (6, 3), (7, 3), (8, 2)]),
    (16, [(1, 3), (2, 3), (3, 3), (4, 3), (5, 3), (6, 3), (7, 3), (8, 3)]),
    (17, [(1, 3), (2, 3), (3, 3), (4, 3), (5, 3), (6, 3), (7, 3), (8, 3), (9, 2)]),
    (18, [(1, 3), (2, 3), (3, 3), (4, 3), (5, 3), (6, 3), (7, 3), (8, 3), (9, 3)]),
    (19, [(1, 3), (2, 3), (3, 3), (4, 3), (5, 3), (6, 3), (7, 3), (8, 3), (9, 3), (10, 1)]),
    (20, [(1, 3), (2, 3), (3, 3), (4, 3), (5, 3), (6, 3), (7, 3), (8, 3), (9, 3), (10, 1)])]
  learningRule := "spontaneous"

/-- The `'oracle'` entry of `CLASS_PROGRESSIONS` in spell-slot-progression.js. -/
def oracleProgression : ClassProgression where
  spellSlots := [
    (1, [(1, 3)]),
    (2, [(1, 4)]),
    (3, [(1, 4), (2, 3)]),
    (4, [(1, 4), (2, 4)]),
    (5, [(1, 4), (2, 4), (3, 3)]),
    (6, [(1, 4), (2, 4), (3, 4)]),
    (7, [(1, 4), (2, 4), (3, 4), (4, 3)]),
    (8, [(1, 4), (2, 4), (3, 4), (4, 4)]),
    (9, [(1, 4), (2, 4), (3, 4), (4, 4), (5, 3)]),
    (10, [(1, 4), (2, 4), (3, 4), (4, 4), (5, 4)]),
    (11, [(1, 4), (2, 4), (3, 4), (4, 4), (5, 4), (6, 3)]),
    (12, [(1, 4), (2, 4), (3, 4), (4, 4), (5, 4), (6, 4)]),
    (13, [(1, 4), (2, 4), (3, 4), (4, 4), (5, 4), (6, 4), (7, 3)]),
    (14, [(1, 4), (2, 4), (3, 4), (4, 4), (5, 4), (6, 4), (7, 4)]),
    (15, [(1, 4), (2, 4), (3, 4), (4, 4), (5, 4), (6, 4), (7, 4), (8, 3)]),
    (16, [(1, 4), (2, 4), (3, 4), (4, 4), (5, 4), (6, 4), (7, 4), (8, 4)]),
    (17, [(1, 4), (2, 4), (3, 4), (4, 4), (5, 4), (6, 4), (7, 4), (8, 4), (9, 3)]),
    (18, [(1, 4), (2, 4), (3, 4), (4, 4), (5, 4), (6, 4), (7, 4), (8, 4), (9, 4)]),
    (19, [(1, 4), (2, 4), (3, 4), (4, 4), (5, 4), (6, 4), (7, 4), (8, 4), (9, 4), (10, 1)]),
    (20, [(1, 4), (2, 4), (3, 4), (4, 4), (5, 4), (6, 4), (7, 4), (8, 4), (9, 4), (10, 1)])]
  learningRule := "spontaneous"

/-- The `'witch'` entry of `CLASS_PROGRESSIONS` in spell-slot-progression.js. -/
def witchProgression : ClassProgression where
  spellSlots := [
    (1, [(1, 2)]),
    (2, [(1, 3)]),
    (3, [(1, 3), (2, 2)]),
    (4, [(1, 3), (2, 3)]),
    (5, [(1, 3), (2, 3), (3, 2)]),
    (6, [(1, 3), (2, 3), (3, 3)]),
    (7, [(1, 3), (2, 3), (3, 3), (4, 2)]),
    (8, [(1, 3), (2, 3), (3, 3), (4, 3)]),
    (9, [(1, 3), (2, 3), (3, 3), (4, 3), (5, 2)]),
    (10, [(1, 3), (2, 3), (3, 3), (4, 3), (5, 3)]),
    (11, [(1, 3), (2, 3), (3, 3), (4, 3), (5, 3), (6, 2)]),
    (12, [(1, 3), (2, 3), (3, 3), (4, 3), (5, 3), (6, 3)]),
    (13, [(1, 3), (2, 3), (3, 3), (4, 3), (5, 3), (6, 3), (7, 2)]),
    (14, [(1, 3), (2, 3), (3, 3), (4, 3), (5, 3), (6, 3), (7, 3)]),
    (15, [(1, 3), (2, 3), (3, 3), (4, 3), (5, 3), (6, 3), (7, 3), (8, 2)]),
    (16, [(1, 3), (2, 3), (3, 3), (4, 3), (5, 3), (6, 3), (7, 3), (8, 3)]),
    (17, [(1, 3), (2, 3), (3, 3), (4, 3), (5, 3), (6, 3), (7, 3), (8, 3), (9, 2)]),
    (18, [(1, 3), (2, 3), (3, 3), (4, 3), (5, 3), (6, 3), (7, 3), (8, 3), (9, 3)]),
    (19, [(1, 3), (2, 3), (3, 3), (4, 3), (5, 3), (6, 3), (7, 3), (8, 3), (9, 3), (10, 1)]),
    (20, [(1, 3), (2, 3), (3, 3), (4, 3), (5, 3), (6, 3), (7, 3), (8, 3), (9, 3), (10, 1)])]
  learningRule := "prepared"

/-- The `'animist'` entry of `CLASS_PROGRESSIONS` in spell-slot-progression.js. -/
def animistProgression : ClassProgression where
  spellSlots := [
    (1, [(0, 2), (1, 1)]),
    (2, [(0, 2), (1, 2)]),
    (3, [(0, 2), (1, 2), (2, 1)]),
    (4, [(0, 2), (1, 2), (2, 2)]),
    (5, [(0, 2), (1, 2), (2, 2), (3, 1)]),
    (6, [(0, 2), (1, 2), (2, 2), (3, 2)]),
    (7, [(0, 2), (1, 2), (2, 2), (3, 2), (4, 1)]),
    (8, [(0, 2), (1, 2), (2, 2), (3, 2), (4, 2)]),
    (9, [(0, 2), (1, 2), (2, 2), (3, 2), (4, 2), (5, 1)]),
    (10, [(0, 2), (1, 2), (2, 2), (3, 2), (4, 2), (5, 2)]),
    (11, [(0, 2), (1, 2), (2, 2), (3, 2), (4, 2), (5, 2), (6, 1)]),
    (12, [(0, 2), (1, 2), (2, 2), (3, 2), (4, 2), (5, 2), (6, 2)]),
    (13, [(0, 2), (1, 2), (2, 2), (3, 2), (4, 2), (5, 2), (6, 2), (7, 1)]),
    (14, [(0, 2), (1, 2), (2, 2), (3, 2), (4, 2), (5, 2), (6, 2), (7, 2)]),
    (15, [(0, 2), (1, 2), (2, 2), (3, 2), (4, 2), (5, 2), (6, 2), (7, 2), (8, 1)]),
    (16, [(0, 2), (1, 2), (2, 2), (3, 2), (4, 2), (5, 2), (6, 2), (7, 2), (8, 2)]),
    (17, [(0, 2), (1, 2), (2, 2), (3, 2), (4, 2), (5, 2), (6, 2), (7, 2), (8, 2), (9, 1)]),
    (18, [(0, 2), (1, 2), (2, 2), (3, 2), (4, 2), (5, 2), (6, 2), (7, 2), (8, 2), (9, 2)]),
    (19, [(0, 2), (1, 2), (2, 2), (3, 2), (4, 2), (5, 2), (6, 2), (7, 2), (8, 2), (9, 2)]),
    (20, [(0, 2), (1, 2), (2, 2), (3, 2), (4, 2), (5, 2), (6, 2), (7, 2), (8, 2), (9, 2)])]
  apparitionSlots := [
    (1, [(0, 2), (1, 1)]),
    (2, [(0, 2), (1, 1)]),
    (3, [(0, 2), (1, 1), (2, 1)]),
    (4, [(0, 2), (1, 1), (2, 1)]),
    (5, [(0, 2), (1, 1), (2, 1), (3, 1)]),
    (6, [(0, 2), (1, 1), (2, 1), (3, 1)]),
    (7, [(0, 3), (1, 1), (2, 1), (3, 1), (4, 1)]),
    (8, [(0, 3), (1, 1), (2, 1), (3, 1), (4, 1)]),
    (9, [(0, 3), (1, 1), (2, 1), (3, 1), (4, 1), (5, 1)]),
    (10, [(0, 3), (1, 2), (2, 2), (3, 2), (4, 1), (5, 1)]),
    (11, [(0, 3), (1, 2), (2, 2), (3, 2), (4, 2), (5, 1), (6, 1)]),
    (12, [(0, 3), (1, 2), (2, 2), (3, 2), (4, 2), (5, 1), (6, 1)]),
    (13, [(0, 3), (1, 2), (2, 2), (3, 2), (4, 2), (5, 2), (6, 1), (7, 1)]),
    (14, [(0, 3), (1, 2), (2, 2), (3, 2), (4, 2), (5, 2), (6, 1), (7, 1)]),
    (15, [(0, 4), (1, 2), (2, 2), (3, 2), (4, 2), (5, 2), (6, 2), (7, 1), (8, 1)]),
    (16, [(0, 4), (1, 2), (2, 2), (3, 2), (4, 2), (5, 2), (6, 2), (7, 1), (8, 1)]),
    (17, [(0, 4), (1, 2), (2, 2), (3, 2), (4, 2), (5, 2), (6, 2), (7, 2), (8, 1), (9, 1)]),
    (18, [(0, 4), (1, 2), (2, 2), (3, 2), (4, 2), (5, 2), (6, 2), (7, 2), (8, 1), (9, 1)]),
    (19, [(0, 4), (1, 2), (2, 2), (3, 2), (4, 2), (5, 2), (6, 2), (7, 2), (8, 2), (9, 1), (10, 1)]),
    (20, [(0, 4), (1, 2), (2, 2), (3, 2), (4, 2), (5, 2), (6, 2), (7, 2), (8, 2), (9, 1), (10, 1)])]
  learningRule := "auto"
  hasDualSpellLists := true

/-- The `'necromancer'` entry of `CLASS_PROGRESSIONS` in spell-slot-progression.js. -/
def necromancerProgression : ClassProgression where
  spellSlots := [
    (1, [(1, 1)]),
    (2, [(1, 2)]),
    (3, [(1, 2), (2, 1)]),
    (4, [(1, 2), (2, 2)]),
    (5, [(1, 2), (2, 2), (3, 1)]),
    (6, [(1, 2), (2, 2), (3, 2)]),
    (7, [(1, 2), (2, 2), (3, 2), (4, 1)]),
    (8, [(1, 2), (2, 2), (3, 2), (4, 2)]),
    (9, [(1, 2), (2, 2), (3, 2), (4, 2), (5, 1)]),
    (10, [(1, 2), (2, 2), (3, 2), (4, 2), (5, 2)]),
    (11, [(1, 2), (2, 2), (3, 2), (4, 2), (5, 2), (6, 1)]),
    (12, [(1, 2), (2, 2), (3, 2), (4, 2), (5, 2), (6, 2)]),
    (13, [(1, 2), (2, 2), (3, 2), (4, 2), (5, 2), (6, 2), (7, 1)]),
    (14, [(1, 2), (2, 2), (3, 2), (4, 2), (5, 2), (6, 2), (7, 2)]),
    (15, [(1, 2), (2, 2), (3, 2), (4, 2), (5, 2), (6, 2), (7, 2), (8, 1)]),
    (16, [(1, 2), (2, 2), (3, 2), (4, 2), (5, 2), (6, 2), (7, 2), (8, 2)]),
    (17, [(1, 2), (2, 2), (3, 2), (4, 2), (5, 2), (6, 2), (7, 2), (8, 2), (9, 1)]),
    (18, [(1, 2), (2, 2), (3, 2), (4, 2), (5, 2), (6, 2), (7, 2), (8, 2), (9, 2)]),
    (19, [(1, 2), (2, 2), (3, 2), (4, 2), (5, 2), (6, 2), (7, 2), (8, 2), (9, 2), (10, 1)]),
    (20, [(1, 2), (2, 2), (3, 2), (4, 2), (5, 2), (6, 2), (7, 2), (8, 2), (9, 2), (10, 1)])]
  learningRule := "prepared"

/-- The `'psychic'` entry of `CLASS_PROGRESSIONS` in spell-slot-progression.js. -/
def psychicProgression : ClassProgression where
  spellSlots := [
    (1, [(1, 1)]),
    (2, [(1, 2)]),
    (3, [(1, 2), (2, 1)]),
    (4, [(1, 2), (2, 2)]),
    (5, [(1, 2), (2, 2), (3, 1)]),
    (6, [(1, 2), (2, 2), (3, 2)]),
    (7, [(1, 2), (2, 2), (3, 2), (4, 1)]),
    (8, [(1, 2), (2, 2), (3, 2), (4, 2)]),
    (9, [(1, 2), (2, 2), (3, 2), (4, 2), (5, 1)]),
    (10, [(1, 2), (2, 2), (3, 2), (4, 2), (5, 2)]),
    (11, [(1, 2), (2, 2), (3, 2), (4, 2), (5, 2), (6, 1)]),
    (12, [(1, 2), (2, 2), (3, 2), (4, 2), (5, 2), (6, 2)]),
    (13, [(1, 2), (2, 2), (3, 2), (4, 2), (5, 2), (6, 2), (7, 1)]),
    (14, [(1, 2), (2, 2), (3, 2), (4, 2), (5, 2), (6, 2), (7, 2)]),
    (15, [(1, 2), (2, 2), (3, 2), (4, 2), (5, 2), (6, 2), (7, 2), (8, 1)]),
    (16, [(1, 2), (2, 2), (3, 2), (4, 2), (5, 2), (6, 2), (7, 2), (8, 2)]),
    (17, [(1, 2), (2, 2), (3, 2), (4, 2), (5, 2), (6, 2), (7, 2), (8, 2), (9, 1)]),
    (18, [(1, 2), (2, 2), (3, 2), (4, 2), (5, 2), (6, 2), (7, 2), (8, 2), (9, 2)]),
    (19, [(1, 2), (2, 2), (3, 2), (4, 2), (5, 2), (6, 2), (7, 2), (8, 2), (9, 2), (10, 1)]),
    (20, [(1, 2), (2, 2), (3, 2), (4, 2), (5, 2), (6, 2), (7, 2), (8, 2), (9, 2), (10, 1)])]
  learningRule := "spontaneous"

/-- The `'magus'` entry of `CLASS_PROGRESSIONS` in spell-slot-progression.js. -/
def magusProgression : ClassProgression where
  spellSlots := [
    (1, [(1, 1)]),
    (2, [(1, 2)]),
    (3, [(1, 2), (2, 1)]),
    (4, [(1, 2), (2, 2)]),
    (5, [(2, 2), (3, 2)]),
    (6, [(2, 2), (3, 2)]),
    (7, [(3, 2), (4, 2)]),
    (8, [(3, 2), (4, 2)]),
    (9, [(4, 2), (5, 2)]),
    (10, [(4, 2), (5, 2)]),
    (11, [(5, 2), (6, 2)]),
    (12, [(5, 2), (6, 2)]),
    (13, [(6, 2), (7, 2)]),
    (14, [(6, 2), (7, 2)]),
    (15, [(7, 2), (8, 2)]),
    (16, [(7, 2), (8, 2)]),
    (17, [(8, 2), (9, 2)]),
    (18, [(8, 2), (9, 2)]),
    (19, [(8, 2), (9, 2)]),
    (20, [(8, 2), (9, 2)])]
  learningRule := "prepared"
  isWaveCaster := true

/-- The `'summoner'` entry of `CLASS_PROGRESSIONS` in spell-slot-progression.js. -/
def summonerProgression : ClassProgression where
  spellSlots := [
    (1, [(1, 1)]),
    (2, [(1, 2)]),
    (3, [(1, 2), (2, 1)]),
    (4, [(1, 2), (2, 2)]),
    (5, [(2, 2), (3, 2)]),
    (6, [(2, 2), (3, 2)]),
    (7, [(3, 2), (4, 2)]),
    (8, [(3, 2), (4, 2)]),
    (9, [(4, 2), (5, 2)]),
    (10, [(4, 2), (5, 2)]),
    (11, [(5, 2), (6, 2)]),
    (12, [(5, 2), (6, 2)]),
    (13, [(6, 2), (7, 2)]),
    (14, [(6, 2), (7, 2)]),
    (15, [(7, 2), (8, 2)]),
    (16, [(7, 2), (8, 2)]),
    (17, [(8, 2), (9, 2)]),
    (18, [(8, 2), (9, 2)]),
    (19, [(8, 2), (9, 2)]),
    (20, [(8, 2), (9, 2)])]
  learningRule := "spontaneous"
  isWaveCaster := true

/-- spell-slot-progression.js `CLASS_PROGRESSIONS`: the static
class-slug-indexed table of spell slot progressions. -/
def CLASS_PROGRESSIONS : List (String × ClassProgression) := [
  ("wizard", wizardProgression),
  ("sorcerer", sorcererProgression),
  ("cleric", clericProgression),
  ("druid", druidProgression),
  ("bard", bardProgression),
  ("oracle", oracleProgression),
  ("witch", witchProgression),
  ("animist", animistProgression),
  ("necromancer", necromancerProgression),
  ("psychic", psychicProgression),
  ("magus", magusProgression),
  ("summoner", summonerProgression)]

/-- spell-slot-progression.js `getSpellSlotsAtLevel(classSlug, level)`:
the class's slot map at `level`, `{}` for an unknown slug or level. -/
def getSpellSlotsAtLevel (classSlug : String) (level : Nat) : SlotMap :=
  match CLASS_PROGRESSIONS.lookup classSlug with
  | none => []
  | some progression => (progression.spellSlots.lookup level).getD []

/-- spell-slot-progression.js `getNewSpellSlotsAtLevel(classSlug, level)`:
at level 1 every slot is new; otherwise the positive per-rank delta
against level - 1, over ranks 1..10 in order. -/
def getNewSpellSlotsAtLevel (classSlug : String) (level : Nat) : SlotMap :=
  if level = 1 then
    getSpellSlotsAtLevel classSlug 1
  else
    let currentSlots := getSpellSlotsAtLevel classSlug level
    let previousSlots := getSpellSlotsAtLevel classSlug (level - 1)
    (List.range' 1 10).filterMap (fun rank =>
      let current := slotCount currentSlots rank
      let previous := slotCount previousSlots rank
      if previous < current then some (rank, current - previous) else none)

/-- spell-slot-progression.js `getLostSpellSlotsAtLevel(classSlug, level)`:
`{}` at level 1 and for non-wave-casters (including unknown slugs);
otherwise the positive per-rank deficit against level - 1 over
ranks 1..10 in order. -/
def getLostSpellSlotsAtLevel (classSlug : String) (level : Nat) : SlotMap :=
  if level = 1 then []
  else
    match CLASS_PROGRESSIONS.lookup classSlug with
    | none => []
    | some progression =>
      if !progression.isWaveCaster then []
      else
        let currentSlots := getSpellSlotsAtLevel classSlug level
        let previousSlots := getSpellSlotsAtLevel classSlug (level - 1)
        (List.range' 1 10).filterMap (fun rank =>
          let current := slotCount currentSlots rank
          let previous := slotCount previousSlots rank
          if current < previous then some (rank, previous - current) else none)

/-- spell-slot-progression.js `isWaveCaster(classSlug)`:
`progression?.isWaveCaster === true`. -/
def isWaveCaster (classSlug : String) : Bool :=
  match CLASS_PROGRESSIONS.lookup classSlug with
  | none => false
  | some progression => progression.isWaveCaster

/-- Shorthand used by the theorems below: the slot count of `classSlug`
at `level` for `rank`, absent ranks reading as 0. -/
def slotsVal (classSlug : String) (level rank : Nat) : Nat :=
  slotCount (getSpellSlotsAtLevel classSlug level) rank


/-- JavaScript `.toLowerCase()`, implemented over the character list
(ASCII lowering, which is what the compared names and traits use). -/
def strToLower (s : String) : String := String.mk (s.data.map Char.toLower)

/-- An owned item on an actor, reduced to the fields the embedded
functions read: `i.type`, `i.name`, `i.slug` (`none` models a missing
slug). -/
structure Item where
  itemType : String
  name : String
  slug : Option String
deriving DecidableEq

/-- An actor snapshot, reduced to the fields the embedded functions
read: `actor.system.abilities[key]?.value` (association list keyed by
`"str"`, `"dex"`, ...; absence models a missing ability entry),
`actor.system.skills?.[name]` (association list keyed by skill name,
holding the rank; absence models missing skill data), and
`actor.items`. -/
structure Actor where
  abilities : List (String × Nat)
  skills : List (String × Nat)
  items : List Item
deriving DecidableEq

/-- JavaScript `a || b` for a possibly-missing string `a`: the fallback
is used when `a` is `undefined` or the empty string (both falsy). -/
def jsOrString (a : Option String) (b : String) : String :=
  match a with
  | none => b
  | some s => if s = "" then b else s

/-- Collapse each run of whitespace to a single `'-'`, mirroring the
JavaScript `.replace(/\s+/g, '-')`.  The flag records whether the
previous character was whitespace. -/
def squashWsToHyphen : List Char → Bool → List Char
  | [], _ => []
  | c :: rest, inWs =>
    if c.isWhitespace then
      if inWs then squashWsToHyphen rest true
      else '-' :: squashWsToHyphen rest true
    else c :: squashWsToHyphen rest false

/-- The slug fallback in `getSpellsToLearnAtLevel`:
`classItem.name?.toLowerCase().replace(/\s+/g, '-')`. -/
def hyphenateName (name : String) : String :=
  String.mk (squashWsToHyphen (strToLower name).data false)

/-- Result record of `getSpellsToLearnAtLevel`.  `learningRule` is
`none` on the early returns that omit the property. -/
structure SpellsToLearn where
  totalSpells : Nat
  byRank : SlotMap
  highestRank : Nat
  learningRule : Option String
deriving DecidableEq

/-- spell-slot-progression.js `getSpellsToLearnAtLevel(actor, level)`:
finds the actor's class item, resolves its slug (name fallback), then
branches on the progression's learning rule.  `auto` learns nothing;
`prepared` learns 2 spells at the single highest rank with a positive
slot count at `level`; `spontaneous` learns one spell per newly gained
slot, with `highestRank` the largest rank gaining slots. -/
def getSpellsToLearnAtLevel (actor : Actor) (level : Nat) : SpellsToLearn :=
  match actor.items.find? (fun i => i.itemType == "class") with
  | none => ⟨0, [], 0, none⟩
  | some classItem =>
    let classSlug := jsOrString classItem.slug (hyphenateName classItem.name)
    match CLASS_PROGRESSIONS.lookup classSlug with
    | none => ⟨0, [], 0, none⟩
    | some progression =>
      let learningRule := progression.learningRule
      if learningRule = "auto" then ⟨0, [], 0, some learningRule⟩
      else
        let newSlots := getNewSpellSlotsAtLevel classSlug level
        if learningRule = "prepared" then
          let slots := getSpellSlotsAtLevel classSlug level
          match (List.range' 1 10).reverse.find? (fun rank => 0 < slotCount slots rank) with
          | some rank => ⟨2, [(rank, 2)], rank, some learningRule⟩
          | none => ⟨0, [], 0, some learningRule⟩
        else if learningRule = "spontaneous" then
          let byRank := (List.range' 1 10).filterMap (fun rank =>
            if 0 < slotCount newSlots rank then some (rank, slotCount newSlots rank) else none)
          ⟨byRank.foldl (fun acc kv => acc + kv.2) 0, byRank,
           byRank.foldl (fun acc kv => max acc kv.1) 0, some learningRule⟩
        else ⟨0, [], 0, some learningRule⟩

/-- Result record of feat-helpers `detectAbilityBoosts`.  The JavaScript
object omits `completing` except on the completion branch; its absence
is modelled as `false`. -/
structure BoostInfo where
  hasBoosts : Bool
  count : Nat
  isPartial : Bool
  completing : Bool := false
deriving DecidableEq

/-- feat-helpers `detectAbilityBoosts(actor, targetLevel)`.  The ambient
`game.settings.get('pf2e', 'gradualBoosts') === 'enabled'` read is the
explicit `gradualBoosts` parameter; the actor is otherwise unused. -/
def detectAbilityBoosts (gradualBoosts : Bool) (targetLevel : Nat) : BoostInfo :=
  if gradualBoosts then
    let evenLevels : List Nat := [2, 4, 6, 8, 10, 12, 14, 16, 18, 20]
    let completionLevels : List Nat := [3, 7, 13, 17]
    if evenLevels.contains targetLevel then ⟨true, 4, true, false⟩
    else if completionLevels.contains targetLevel then ⟨true, 0, true, true⟩
    else ⟨false, 0, false, false⟩
  else
    let standardBoostLevels : List Nat := [5, 10, 15, 20]
    if standardBoostLevels.contains targetLevel then ⟨true, 4, false, false⟩
    else ⟨false, 0, false, false⟩

/-- The variant-rule record produced by `detectVariantRules()`:
four booleans plus the `mythic` and `abp` setting strings. -/
structure VariantRules where
  freeArchetype : Bool
  gradualBoosts : Bool
  ancestryParagon : Bool
  dualClass : Bool
  mythic : String
  abp : String
deriving DecidableEq

/-- Result record of `validateVariantRulesCompatibility`. -/
structure CompatibilityResult where
  compatible : Bool
  warnings : List String
deriving DecidableEq

/-- variant-rules-helpers `validateVariantRulesCompatibility(planRules,
currentRules)`: sequentially pushes warnings (hard checks for
freeArchetype/mythic/dualClass fire only when the plan expects the rule
and it is currently off; soft checks for gradualBoosts/ancestryParagon/
abp fire on any difference); `compatible` iff no warnings. -/
def validateVariantRulesCompatibility (planRules currentRules : VariantRules) :
    CompatibilityResult :=
  let warnings : List String :=
    (if planRules.freeArchetype && !currentRules.freeArchetype then
      ["Build plan expects Free Archetype but it is disabled"] else []) ++
    (if planRules.mythic == "enabled" && currentRules.mythic != "enabled" then
      ["Build plan expects Mythic but it is disabled"] else []) ++
    (if planRules.dualClass && !currentRules.dualClass then
      ["Build plan expects Dual Class but it is disabled"] else []) ++
    (if planRules.gradualBoosts != currentRules.gradualBoosts then
      ["Gradual Ability Boosts setting has changed"] else []) ++
    (if planRules.ancestryParagon != currentRules.ancestryParagon then
      ["Ancestry Paragon setting has changed"] else []) ++
    (if planRules.abp != currentRules.abp then
      ["Automatic Bonus Progression setting has changed"] else [])
  ⟨warnings.isEmpty, warnings⟩

/-- A feat document, reduced to the fields the embedded functions read:
`feat.name`, `feat.slug`, `feat.system.traits.value`,
`feat.system.level.value`, `feat.system.maxTakable` (`none` models the
property being unset) and `feat.system.prerequisites.value` (each
entry's `.value`, `none` modelling a missing value). -/
structure Feat where
  name : String
  slug : String
  traits : List String
  level : Nat
  maxTakable : Option Nat
  prerequisites : List (Option String)
deriving DecidableEq

/-- feat-helpers `normalizeString(str)`: lowercase and remove all
whitespace (`.replace(/\s+/g, '')`). -/
def normalizeString (str : String) : String :=
  String.mk ((strToLower str).data.filter (fun c => !c.isWhitespace))

/-- feat-helpers `loadManualArchetypeFeats()`: the source currently
returns an empty object. -/
def loadManualArchetypeFeats : List (String × List String) := []

/-- The `searchQueries` argument of `filterFeats`: a single string or an
array of strings. -/
inductive SearchQueries where
  | single (s : String)
  | multi (qs : List String)

/-- The query normalization at the top of `filterFeats`:
`Array.isArray(searchQueries) ? searchQueries.map(normalizeString)
: [normalizeString(searchQueries)]`. -/
def SearchQueries.normalized : SearchQueries → List String
  | .single s => [normalizeString s]
  | .multi qs => qs.map normalizeString

/-- JavaScript `feat.system.maxTakable || 1`: unset and 0 default to
1. -/
def jsOrOneNat : Option Nat → Nat
  | none => 1
  | some n => if n = 0 then 1 else n

/-- feat-helpers `filterFeats(searchQueries, targetLevel, existingFeats)`.
The ambient `dataProvider.getFeats()` result is the explicit `allFeats`
parameter.  A feat is kept iff it has a matching normalized trait (or is
a manual archetype exception, a list that is currently empty), its level
is at most `targetLevel`, it is not already owned by case-insensitive
name at `maxTakable === 1` (`maxTakable || 1` defaulting), and it is not
a destiny-trait feat when `targetLevel !== 12`. -/
def filterFeats (allFeats : List Feat) (searchQueries : SearchQueries)
    (targetLevel : Nat) (existingFeats : List Feat) : List Feat :=
  let manualArchetypeFeats := loadManualArchetypeFeats
  let normalizedQueries := searchQueries.normalized
  let existingFeatNames := existingFeats.map (fun f => strToLower f.name)
  allFeats.filter (fun feat =>
    let traits := feat.traits.map normalizeString
    let isTaken := existingFeatNames.contains (strToLower feat.name)
    let maxTakable : Nat := jsOrOneNat feat.maxTakable
    let isManualArchetypeFeat := normalizedQueries.contains "archetype" &&
      ((manualArchetypeFeats.map Prod.snd).flatten.contains feat.slug)
    let isDestinyTraitExcluded := targetLevel != 12 && traits.contains "destiny"
    (normalizedQueries.any (fun query => traits.contains query) || isManualArchetypeFeat) &&
    decide (feat.level ≤ targetLevel) &&
    !(isTaken && maxTakable == 1) &&
    !isDestinyTraitExcluded)

/-- Regex word character for the `\b` assertions in the prerequisite
feat-name regex: `[A-Za-z0-9_]`. -/
def isWordChar (c : Char) : Bool := c.isAlphanum || c = '_'

/-- A `\b` word boundary holds between two (possibly absent) adjacent
characters iff exactly one side is a word character. -/
def atBoundary (left right : Option Char) : Bool :=
  (left.elim false isWordChar) != (right.elim false isWordChar)

/-- Whether the needle matches at the head of `hay` with `\b` boundaries
on both sides (`prev` is the character just before this position). -/
def wbHere (needle : List Char) (prev : Option Char) (hay : List Char) : Bool :=
  needle.isPrefixOf hay && atBoundary prev needle.head? &&
    atBoundary needle.getLast? (hay.drop needle.length).head?

/-- Scan of `hay` for a `\b needle \b` match at any position, modelling
`new RegExp('\\b' + escapedName + '\\b', 'i').test(text)` (the escaping
makes the name a literal, and both sides are already lowercase). -/
def wbScan (needle : List Char) (prev : Option Char) : List Char → Bool
  | [] => wbHere needle prev []
  | c :: rest => wbHere needle prev (c :: rest) || wbScan needle (some c) rest

/-- Substring search over character lists. -/
def subSearch (needle : List Char) : List Char → Bool
  | [] => needle.isEmpty
  | c :: rest => needle.isPrefixOf (c :: rest) || subSearch needle rest

/-- JavaScript `hay.includes(needle)` (plain substring containment). -/
def strIncludes (hay needle : String) : Bool := subSearch needle.data hay.data

/-- The alternation of the ability regex
`/(strength|dexterity|constitution|intelligence|wisdom|charisma)\s+(\d+)/`. -/
def ABILITY_WORDS : List String :=
  ["strength", "dexterity", "constitution", "intelligence", "wisdom", "charisma"]

/-- Numeric value of a digit run, as `parseInt` reads the `\d+` capture. -/
def digitsToNat (ds : List Char) : Nat :=
  ds.foldl (fun acc c => acc * 10 + (c.toNat - '0'.toNat)) 0

/-- Try the ability regex at one start position: an ability word, then
one or more whitespace characters, then one or more digits. -/
def matchAbilityAt (cs : List Char) : Option (String × Nat) :=
  ABILITY_WORDS.findSome? (fun w =>
    if w.data.isPrefixOf cs then
      let rest := cs.drop w.data.length
      if (rest.takeWhile Char.isWhitespace).isEmpty then none
      else
        let digits := (rest.dropWhile Char.isWhitespace).takeWhile Char.isDigit
        if digits.isEmpty then none else some (w, digitsToNat digits)
    else none)

/-- Leftmost match of the ability regex. -/
def scanAbility : List Char → Option (String × Nat)
  | [] => none
  | c :: rest =>
    match matchAbilityAt (c :: rest) with
    | some r => some r
    | none => scanAbility rest

/-- `prereqText.match(/(strength|...|charisma)\s+(\d+)/)` as used by
`checkPrerequisites`, returning the captured ability word and number. -/
def findAbilityRequirement (s : String) : Option (String × Nat) := scanAbility s.data

/-- The skill-name list hard-coded in the proficiency branch of
`checkPrerequisites`. -/
def PREREQ_SKILLS : List String :=
  ["acrobatics", "arcana", "athletics", "crafting", "deception", "diplomacy",
   "intimidation", "lore", "medicine", "nature", "occultism", "performance",
   "religion", "society", "stealth", "survival", "thievery"]

/-- The `rankNames` array of the proficiency branch. -/
def RANK_NAMES : List String := ["untrained", "trained", "expert", "master", "legendary"]

/-- Effect of one iteration of the `checkPrerequisites` loop on the
`missing` and `unknown` accumulators. -/
inductive PrereqLineResult where
  | handledOk
  | pushMissing (s : String)
  | pushUnknown (s : String)
deriving DecidableEq

/-- One iteration of the `for (const prereq of prereqs)` loop of
feat-helpers `checkPrerequisites`, classifying a single free-text
prerequisite line against the actor: empty text is unknown; an ability
requirement compares scores; then feat-name word-boundary matching with
the feat/dedication/archetype keywords; then the proficiency-keyword
branch over the known skills; then class/ancestry/heritage mentions and
everything else are unknown. -/
def classifyPrereq (actor : Actor) (prereqValue : Option String) : PrereqLineResult :=
  let prereqText := (prereqValue.map strToLower).getD ""
  if prereqText = "" then
    .pushUnknown (jsOrString prereqValue "Unknown prerequisite")
  else
    match findAbilityRequirement prereqText with
    | some (ability, value) =>
      let abilityKey := String.mk (ability.data.take 3)
      let actorValue := (actor.abilities.lookup abilityKey).getD 0
      if actorValue < value then .pushMissing (prereqValue.getD "") else .handledOk
    | none =>
      let actorFeatNames :=
        (actor.items.filter (fun i => i.itemType == "feat")).map (fun i => strToLower i.name)
      let hasFeat := actorFeatNames.any (fun featName => wbScan featName.data none prereqText.data)
      if !hasFeat && (strIncludes prereqText "feat" || strIncludes prereqText "dedication" ||
          strIncludes prereqText "archetype") then
        .pushMissing (prereqValue.getD "")
      else if hasFeat then .handledOk
      else if strIncludes prereqText "trained" || strIncludes prereqText "expert" ||
          strIncludes prereqText "master" || strIncludes prereqText "legendary" then
        match PREREQ_SKILLS.findSome? (fun skillName =>
            if strIncludes prereqText skillName then
              (actor.skills.lookup skillName).map (fun rank => (skillName, rank))
            else none) with
        | some (_, rank) =>
          match RANK_NAMES.findIdx? (fun r => strIncludes prereqText r) with
          | some requiredRank =>
            if rank < requiredRank then .pushMissing (prereqValue.getD "") else .handledOk
          | none => .handledOk
        | none =>
          if strIncludes prereqText "class" || strIncludes prereqText "ancestry" ||
              strIncludes prereqText "heritage" then
            .pushUnknown (prereqValue.getD "")
          else
            .pushUnknown (prereqValue.getD "")
      else if strIncludes prereqText "class" || strIncludes prereqText "ancestry" ||
          strIncludes prereqText "heritage" then
        .pushUnknown (prereqValue.getD "")
      else
        .pushUnknown (prereqValue.getD "")

/-- Result record of `checkPrerequisites`: `meets` is `true`, `false` or
`null` (`none`). -/
structure PrereqCheckResult where
  meets : Option Bool
  missing : List String
  unknown : List String
deriving DecidableEq

/-- feat-helpers `checkPrerequisites(actor, feat)`: trivially met with no
prerequisite lines; otherwise classifies each line, collects `missing`
and `unknown` in order, and aggregates: `null` if any line is unknown,
else `false` if any line is missing, else `true`. -/
def checkPrerequisites (actor : Actor) (feat : Feat) : PrereqCheckResult :=
  let prereqs := feat.prerequisites
  if prereqs.isEmpty then ⟨some true, [], []⟩
  else
    let results := prereqs.map (classifyPrereq actor)
    let missing := results.filterMap (fun r =>
      match r with | .pushMissing s => some s | _ => none)
    let unknown := results.filterMap (fun r =>
      match r with | .pushUnknown s => some s | _ => none)
    let meetsStatus : Option Bool :=
      if !unknown.isEmpty then none
      else if !missing.isEmpty then some false
      else some true
    ⟨meetsStatus, missing, unknown⟩

/-- The per-level `choices` record of a build plan as manipulated by
`BuildPlanManager`.  Feat selections are a UUID string or `none`
(null / unset); `spells` maps the category keys (`cantrips`, `rank1`,
...) to UUID lists. -/
structure LevelChoices where
  classFeats : Option String
  ancestryFeats : Option String
  skillFeats : Option String
  generalFeats : Option String
  freeArchetypeFeats : Option String
  ancestryParagonFeats : Option String
  mythicFeats : Option String
  dualClassFeats : Option String
  skillIncreases : List String
  abilityBoosts : List String
  spells : List (String × List String)
deriving DecidableEq

/-- One entry of a build plan's `levels` record. -/
structure PlanLevel where
  choices : LevelChoices
  applied : Bool
  notes : String
deriving DecidableEq

/-- A build plan as manipulated by `BuildPlanManager` (typed view). -/
structure Plan where
  version : String
  lastModified : Int
  levels : List (Nat × PlanLevel)
deriving DecidableEq

/-- JavaScript truthiness of a stored feat selection: `null`/unset and
the empty string are falsy, any other UUID string is truthy. -/
def featChosen : Option String → Bool
  | none => false
  | some s => s != ""

/-- build-plan-manager `getLevelChoices(plan, level)`: `null` when the
level entry is absent, else that level's `choices`. -/
def getLevelChoices (plan : Plan) (level : Nat) : Option LevelChoices :=
  (plan.levels.lookup level).map PlanLevel.choices

/-- build-plan-manager `hasChoicesForLevel(plan, level)`: the truthiness
of the disjunction over the level's choice record, in source order
(`classFeats || ancestryFeats || skillFeats || generalFeats ||
freeArchetypeFeats || mythicFeats || dualClassFeats || skillIncreases
nonempty || abilityBoosts nonempty || some spells list nonempty`).  Note
the source never reads `ancestryParagonFeats` here. -/
def hasChoicesForLevel (plan : Plan) (level : Nat) : Bool :=
  match getLevelChoices plan level with
  | none => false
  | some choices =>
    featChosen choices.classFeats || featChosen choices.ancestryFeats ||
    featChosen choices.skillFeats || featChosen choices.generalFeats ||
    featChosen choices.freeArchetypeFeats || featChosen choices.mythicFeats ||
    featChosen choices.dualClassFeats ||
    !choices.skillIncreases.isEmpty || !choices.abilityBoosts.isEmpty ||
    choices.spells.any (fun kv => !kv.2.isEmpty)

/-- Modelled from the spec's wording of the non-empty-choice predicate:
a level has a choice iff some feat category among class, ancestry,
skill, general, freeArchetype, ancestryParagon, mythic, dualClass holds
a non-null selection, or a skill-increase / ability-boost set or a
per-rank spell list is non-empty.  This is the claimed behaviour, to be
compared against `hasChoicesForLevel`. -/
def specHasChoicesForLevel (plan : Plan) (level : Nat) : Bool :=
  match getLevelChoices plan level with
  | none => false
  | some c =>
    featChosen c.classFeats || featChosen c.ancestryFeats ||
    featChosen c.skillFeats || featChosen c.generalFeats ||
    featChosen c.freeArchetypeFeats || featChosen c.ancestryParagonFeats ||
    featChosen c.mythicFeats || featChosen c.dualClassFeats ||
    !c.skillIncreases.isEmpty || !c.abilityBoosts.isEmpty ||
    c.spells.any (fun kv => !kv.2.isEmpty)

/-- A non-empty choice in a level's record, as the (amended) claim
enumerates it, with `ancestryParagonFeats` excluded: a non-null,
non-empty feat selection in one of the seven categories the source
reads, or a non-empty skill-increase / ability-boost set, or a
non-empty per-rank spell list. -/
def NonEmptyChoiceAmended (c : LevelChoices) : Prop :=
  (∃ s, s ≠ "" ∧
    (c.classFeats = some s ∨ c.ancestryFeats = some s ∨ c.skillFeats = some s ∨
     c.generalFeats = some s ∨ c.freeArchetypeFeats = some s ∨
     c.mythicFeats = some s ∨ c.dualClassFeats = some s)) ∨
  c.skillIncreases ≠ [] ∨ c.abilityBoosts ≠ [] ∨ (∃ kv ∈ c.spells, kv.2 ≠ [])

/-- A JSON-like value, with a distinguished `jundefined` for JavaScript
`undefined` property values (which `JSON.stringify` drops from
objects). -/
inductive JValue where
  | jnull
  | jundefined
  | jbool (b : Bool)
  | jnum (n : Int)
  | jstr (s : String)
  | jarr (elems : List JValue)
  | jobj (fields : List (String × JValue))

/-- Whether a value is JavaScript `undefined`. -/
def JValue.isUndefined : JValue → Bool
  | .jundefined => true
  | _ => false

mutual
/-- Semantics of `JSON.parse(JSON.stringify(v))` on `JValue`:
`undefined` object properties are dropped, `undefined` array elements
become `null`, everything else survives unchanged. -/
def jsonRoundTrip : JValue → JValue
  | .jnull => .jnull
  | .jundefined => .jnull
  | .jbool b => .jbool b
  | .jnum n => .jnum n
  | .jstr s => .jstr s
  | .jarr elems => .jarr (jsonRoundTripList elems)
  | .jobj fields => .jobj (jsonRoundTripFields fields)

/-- `jsonRoundTrip` mapped over array elements. -/
def jsonRoundTripList : List JValue → List JValue
  | [] => []
  | v :: rest => jsonRoundTrip v :: jsonRoundTripList rest

/-- `jsonRoundTrip` over object fields, dropping `undefined`-valued
properties as `JSON.stringify` does. -/
def jsonRoundTripFields : List (String × JValue) → List (String × JValue)
  | [] => []
  | (k, v) :: rest =>
    if v.isUndefined then jsonRoundTripFields rest
    else (k, jsonRoundTrip v) :: jsonRoundTripFields rest
end

/-- JavaScript property read `v[key]`: `undefined` when absent or when
`v` is not an object. -/
def getField (v : JValue) (key : String) : JValue :=
  match v with
  | .jobj fields => (fields.lookup key).getD .jundefined
  | _ => .jundefined

/-- JavaScript truthiness of a `JValue`. -/
def jsTruthy : JValue → Bool
  | .jnull => false
  | .jundefined => false
  | .jbool b => b
  | .jnum n => n != 0
  | .jstr s => s != ""
  | .jarr _ => true
  | .jobj _ => true

/-- build-plan-manager `importPlan(json)` applied to the already-parsed
JSON value: rejects a plan whose `version` or `levels` property is
falsy, otherwise returns it. -/
def importPlan (parsed : JValue) : Except String JValue :=
  if !jsTruthy (getField parsed "version") then
    .error "Invalid plan format: missing version"
  else if !jsTruthy (getField parsed "levels") then
    .error "Invalid plan format: missing levels"
  else
    .ok parsed

/-- `importPlan(exportPlan(plan))`: `exportPlan` is `JSON.stringify` and
`importPlan` starts with `JSON.parse`, so their composition is
`importPlan` applied to `jsonRoundTrip plan`. -/
def exportThenImport (plan : JValue) : Except String JValue :=
  importPlan (jsonRoundTrip plan)

/-- The empty `spells` record of `createNewPlan`. -/
def emptySpellsValue : JValue :=
  .jobj [("cantrips", .jarr []), ("rank1", .jarr []), ("rank2", .jarr []),
         ("rank3", .jarr []), ("rank4", .jarr []), ("rank5", .jarr []),
         ("rank6", .jarr []), ("rank7", .jarr []), ("rank8", .jarr []),
         ("rank9", .jarr []), ("rank10", .jarr [])]

/-- The per-level `choices` object built by `createNewPlan`: the four
base feat categories are `null`; the variant categories are `null` when
their rule is active and `undefined` otherwise. -/
def choicesValue (variantRules : VariantRules) : JValue :=
  .jobj [
    ("classFeats", .jnull),
    ("ancestryFeats", .jnull),
    ("skillFeats", .jnull),
    ("generalFeats", .jnull),
    ("freeArchetypeFeats", if variantRules.freeArchetype then .jnull else .jundefined),
    ("ancestryParagonFeats", if variantRules.ancestryParagon then .jnull else .jundefined),
    ("mythicFeats", if variantRules.mythic = "enabled" then .jnull else .jundefined),
    ("dualClassFeats", if variantRules.dualClass then .jnull else .jundefined),
    ("skillIncreases", .jarr []),
    ("abilityBoosts", .jarr []),
    ("spells", emptySpellsValue)]

/-- One level entry built by `createNewPlan` (level `i`, with levels up
to the actor's current level pre-marked applied). -/
def levelValue (variantRules : VariantRules) (currentLevel i : Nat) : JValue :=
  .jobj [("choices", choicesValue variantRules),
         ("applied", .jbool (decide (i ≤ currentLevel))),
         ("notes", .jstr "")]

/-- The default mythic tier progression object
(`detectMythicTierProgression`). -/
def mythicTiersValue : JValue :=
  .jobj [("1", .jnum 2), ("2", .jnum 6), ("3", .jnum 10), ("4", .jnum 14), ("5", .jnum 18)]

/-- build-plan-manager `createNewPlan(actor)` as a JSON value.  The
ambient inputs are explicit: the detected variant rules, the actor's
current level, and the `Date.now()` timestamp.  Numeric object keys
(levels, tiers) appear as their decimal strings, as in JavaScript. -/
def createNewPlan (variantRules : VariantRules) (currentLevel : Nat) (now : Int) : JValue :=
  .jobj [
    ("version", .jstr "1.0.0"),
    ("lastModified", .jnum now),
    ("levels", .jobj ((List.range' 1 20).map
      (fun i => (toString i, levelValue variantRules currentLevel i)))),
    ("variantRules", .jobj [
      ("freeArchetype", .jbool variantRules.freeArchetype),
      ("gradualBoosts", .jbool variantRules.gradualBoosts),
      ("ancestryParagon", .jbool variantRules.ancestryParagon),
      ("dualClass", .jbool variantRules.dualClass),
      ("mythic", .jstr variantRules.mythic),
      ("abp", .jstr variantRules.abp)]),
    ("mythicTiers", if variantRules.mythic = "enabled" then mythicTiersValue else .jobj [])]

/-- Observation used to separate a plan from its JSON round trip: the
number of keys in the `choices` object of level 1. -/
def choiceKeyCount (plan : JValue) : Nat :=
  match getField (getField (getField plan "levels") "1") "choices" with
  | .jobj fields => fields.length
  | _ => 0

/-- Example actor with Strength 10, no feats: used to exercise the
prerequisite checker on a mixed missing/unknown feat. -/
def prereqMixActor : Actor := ⟨[("str", 10)], [], []⟩

/-- Example feat whose prerequisite lines are a definitively-unmet
ability requirement and an unparseable line. -/
def prereqMixFeat : Feat :=
  ⟨"Titan Wrestler", "titan-wrestler", [], 1, none,
   [some "Strength 18", some "special requirement"]⟩

/-- Example wizard class item. -/
def wizardClassItem : Item := ⟨"class", "Wizard", some "wizard"⟩

/-- Example actor whose single class item is the wizard. -/
def wizardActorExample : Actor := ⟨[], [], [wizardClassItem]⟩

/-- The variant-rule record with every rule at its default (disabled)
setting. -/
def defaultVariantRules : VariantRules := ⟨false, false, false, false, "disabled", "noABP"⟩

/-- The variant-rule record with every optional feat category active. -/
def allOnVariantRules : VariantRules := ⟨true, true, true, true, "enabled", "ABPRulesAsWritten"⟩

/-- A plan produced by `createNewPlan` under default variant rules for a
level-1 actor at timestamp 0. -/
def planDefault : JValue := createNewPlan defaultVariantRules 1 0

/-- The variant-rule record `defaultVariantRules` with Free Archetype
switched on, used as the live rules in the direction counterexample. -/
def freeArchetypeOnRules : VariantRules := ⟨true, false, false, false, "disabled", "noABP"⟩

/-- A choices record whose only non-empty choice is an ancestry-paragon
feat selection. -/
def paragonOnlyChoices : LevelChoices :=
  ⟨none, none, none, none, none, some "Compendium.pf2e.feats-srd.Item.paragon", none, none,
   [], [], [("cantrips", []), ("rank1", [])]⟩

/-- A build plan whose level 5 holds only the ancestry-paragon choice. -/
def paragonOnlyPlan : Plan :=
  ⟨"1.0.0", 0, [(5, ⟨paragonOnlyChoices, false, ""⟩)]⟩

/-- An already-owned example feat with `maxTakable` unset. -/
def sweepFeatUnset : Feat := ⟨"Sweep", "sweep", ["fighter"], 1, none, []⟩

/-- The same feat with `maxTakable: 3`. -/
def sweepFeatTakable3 : Feat := ⟨"Sweep", "sweep", ["fighter"], 1, some 3, []⟩

/-- Helper: the aggregate `meets` status is determined by the computed
`missing` and `unknown` lists exactly as the source's final branch
writes it. -/
theorem checkPrerequisites_meets_eq (actor : Actor) (feat : Feat) :
    (checkPrerequisites actor feat).meets =
      (if !(checkPrerequisites actor feat).unknown.isEmpty then none
       else if !(checkPrerequisites actor feat).missing.isEmpty then some false
       else some true) := by
  unfold checkPrerequisites
  by_cases hp : feat.prerequisites.isEmpty <;> simp [hp]

/-- Claim C10: checkPrerequisites never returns meets = true when
missing is non-empty, and when missing is empty but unknown is
non-empty it returns null, never false. -/
theorem checkPrerequisites_conservative (actor : Actor) (feat : Feat) :
    ((checkPrerequisites actor feat).missing ≠ [] →
      (checkPrerequisites actor feat).meets ≠ some true) ∧
    ((checkPrerequisites actor feat).missing = [] →
      (checkPrerequisites actor feat).unknown ≠ [] →
      (checkPrerequisites actor feat).meets = none) := by
  have h := checkPrerequisites_meets_eq actor feat
  constructor
  · intro hm
    rw [h]
    by_cases hu : (checkPrerequisites actor feat).unknown.isEmpty <;>
      simp [hu, List.isEmpty_iff, hm]
  · intro hm hu
    rw [h]
    simp [List.isEmpty_iff, hu]

/-- Witness for C10 at a concrete mixed missing/unknown input. -/
theorem checkPrerequisites_conservative_witness :
    (checkPrerequisites prereqMixActor prereqMixFeat).missing ≠ [] ∧
    (checkPrerequisites prereqMixActor prereqMixFeat).meets ≠ some true := by
  exact ⟨by decide, (checkPrerequisites_conservative prereqMixActor prereqMixFeat).1 (by decide)⟩

/-- Counterexample to claim C1: on a feat with one definitively-unmet
line (Strength 18 against Strength 10) and one indeterminate line, the
source returns meets = null, not the claimed false. -/
theorem checkPrerequisites_mixed_counterexample :
    (checkPrerequisites prereqMixActor prereqMixFeat).missing = ["Strength 18"] ∧
    (checkPrerequisites prereqMixActor prereqMixFeat).unknown = ["special requirement"] ∧
    (checkPrerequisites prereqMixActor prereqMixFeat).meets = none := by
  refine ⟨by decide, by decide, by decide⟩

/-- Claim C1 as amended: the unknown check wins.  For a feat with a
non-empty prerequisite list, meets is null whenever any line is
indeterminate (even if another is definitively unmet), false when no
line is indeterminate and some line is unmet, and true otherwise. -/
theorem checkPrerequisites_aggregation_amended (actor : Actor) (feat : Feat)
    (hne : feat.prerequisites ≠ []) :
    ((checkPrerequisites actor feat).unknown ≠ [] →
      (checkPrerequisites actor feat).meets = none) ∧
    ((checkPrerequisites actor feat).unknown = [] →
      (checkPrerequisites actor feat).missing ≠ [] →
      (checkPrerequisites actor feat).meets = some false) ∧
    ((checkPrerequisites actor feat).unknown = [] →
      (checkPrerequisites actor feat).missing = [] →
      (checkPrerequisites actor feat).meets = some true) := by
  have h := checkPrerequisites_meets_eq actor feat
  refine ⟨fun hu => ?_, fun hu hm => ?_, fun hu hm => ?_⟩ <;>
    rw [h] <;> simp [List.isEmpty_iff, hu]
  · intro hc; exact hm hc
  · exact hm

/-- Witness for the amended C1 at the concrete mixed input. -/
theorem checkPrerequisites_aggregation_amended_witness :
    prereqMixFeat.prerequisites ≠ [] ∧
    (checkPrerequisites prereqMixActor prereqMixFeat).unknown ≠ [] ∧
    (checkPrerequisites prereqMixActor prereqMixFeat).meets = none :=
  ⟨by decide, by decide,
    (checkPrerequisites_aggregation_amended prereqMixActor prereqMixFeat (by decide)).1 (by decide)⟩

/-- Claim C5: for an actor whose class item resolves to the wizard slug,
level 3 has slots 1:3, 2:2; the new slots at level 3 are 2:2; and the
prepared learning rule yields 2 spells at rank 2. -/
theorem wizard_level3_scenario (actor : Actor) (classItem : Item)
    (hfind : actor.items.find? (fun i => i.itemType == "class") = some classItem)
    (hslug : classItem.slug = some "wizard") :
    getSpellSlotsAtLevel "wizard" 3 = [(1, 3), (2, 2)] ∧
    getNewSpellSlotsAtLevel "wizard" 3 = [(2, 2)] ∧
    (getSpellsToLearnAtLevel actor 3).totalSpells = 2 ∧
    (getSpellsToLearnAtLevel actor 3).byRank = [(2, 2)] ∧
    (getSpellsToLearnAtLevel actor 3).highestRank = 2 := by
  have h : getSpellsToLearnAtLevel actor 3 = ⟨2, [(2, 2)], 2, some "prepared"⟩ := by
    unfold getSpellsToLearnAtLevel
    rw [hfind]
    simp only [hslug]
    rfl
  refine ⟨by decide, by decide, ?_, ?_, ?_⟩ <;> rw [h]

/-- Witness for C5 at a concrete wizard actor. -/
theorem wizard_level3_scenario_witness :
    wizardActorExample.items.find? (fun i => i.itemType == "class") = some wizardClassItem ∧
    wizardClassItem.slug = some "wizard" ∧
    (getSpellsToLearnAtLevel wizardActorExample 3).totalSpells = 2 :=
  ⟨by decide, by decide,
    (wizard_level3_scenario wizardActorExample wizardClassItem (by decide) (by decide)).2.2.1⟩

/-- Claim C6: per-rank slot counts are monotonically non-decreasing in
level for every non-wave-caster entry of the progression table; for
wave-caster entries every decrease drops the rank to zero at a level
where some higher rank is positive. -/
theorem slot_progression_monotonicity :
    ∀ p ∈ CLASS_PROGRESSIONS, ∀ L ∈ List.range' 2 19, ∀ r ∈ List.range 11,
      (p.2.isWaveCaster = false → slotsVal p.1 (L - 1) r ≤ slotsVal p.1 L r) ∧
      (p.2.isWaveCaster = true → slotsVal p.1 L r < slotsVal p.1 (L - 1) r →
        slotsVal p.1 L r = 0 ∧ ∃ r2 ∈ List.range 11, r < r2 ∧ 0 < slotsVal p.1 L r2) := by
  decide

/-- Witness for C6 at the wizard entry, level 5, rank 1. -/
theorem slot_progression_monotonicity_witness :
    ("wizard", wizardProgression) ∈ CLASS_PROGRESSIONS ∧
    (5 : Nat) ∈ List.range' 2 19 ∧ (1 : Nat) ∈ List.range 11 ∧
    (wizardProgression.isWaveCaster = false →
      slotsVal "wizard" (5 - 1) 1 ≤ slotsVal "wizard" 5 1) :=
  ⟨by decide, by decide, by decide,
    (slot_progression_monotonicity ("wizard", wizardProgression) (by decide)
      5 (by decide) 1 (by decide)).1⟩

/-- Helper: association-list lookup misses when no key of the list
equals the key looked up. -/
theorem lookup_eq_none_of_forall {β : Type} (l : List (String × β)) (k : String)
    (h : ∀ p ∈ l, p.1 ≠ k) : l.lookup k = none := by
  induction l with
  | nil => rfl
  | cons p rest ih =>
    obtain ⟨k1, v1⟩ := p
    have h1 : (k == k1) = false :=
      beq_eq_false_iff_ne.mpr (fun he => h (k1, v1) (List.mem_cons_self _ rest) he.symm)
    simpa [List.lookup, h1] using ih (fun q hq => h q (List.mem_cons_of_mem _ hq))

/-- Claim C7: getLostSpellSlotsAtLevel is empty at level 1, for unknown
slugs and for non-wave-casters; for a wave caster at levels 2..20 it
maps a rank to the deficit against the previous level exactly when that
deficit is positive. -/
theorem lostSlots_characterization (slug : String) (L r : Nat)
    (hL : L ∈ List.range' 2 19) (hr : r ∈ List.range' 1 10) :
    getLostSpellSlotsAtLevel slug 1 = [] ∧
    (isWaveCaster slug = false → getLostSpellSlotsAtLevel slug L = []) ∧
    ((getLostSpellSlotsAtLevel slug L).lookup r =
      if isWaveCaster slug = true ∧ slotsVal slug L r < slotsVal slug (L - 1) r
      then some (slotsVal slug (L - 1) r - slotsVal slug L r)
      else none) := by
  by_cases hmem : slug ∈ CLASS_PROGRESSIONS.map Prod.fst
  · simp only [CLASS_PROGRESSIONS, List.map, List.mem_cons, List.not_mem_nil, or_false] at hmem
    rcases hmem with h|h|h|h|h|h|h|h|h|h|h|h <;> subst h <;>
      revert hr <;> revert r <;> revert hL <;> revert L <;> decide
  · have hnone : CLASS_PROGRESSIONS.lookup slug = none := by
      apply lookup_eq_none_of_forall
      intro p hp hpk
      exact hmem (hpk ▸ List.mem_map_of_mem Prod.fst hp)
    have hwave : isWaveCaster slug = false := by
      unfold isWaveCaster
      rw [hnone]
    have hlost : ∀ lv, getLostSpellSlotsAtLevel slug lv = [] := by
      intro lv
      unfold getLostSpellSlotsAtLevel
      rw [hnone]
      simp
    refine ⟨hlost 1, fun _ => hlost L, ?_⟩
    rw [hlost L]
    simp [hwave]

/-- Witness for C7: the magus loses two rank-1 slots at level 5. -/
theorem lostSlots_characterization_witness :
    (5 : Nat) ∈ List.range' 2 19 ∧ (1 : Nat) ∈ List.range' 1 10 ∧
    (getLostSpellSlotsAtLevel "magus" 5).lookup 1 =
      (if isWaveCaster "magus" = true ∧ slotsVal "magus" 5 1 < slotsVal "magus" (5 - 1) 1
       then some (slotsVal "magus" (5 - 1) 1 - slotsVal "magus" 5 1)
       else none) :=
  ⟨by decide, by decide, (lostSlots_characterization "magus" 5 1 (by decide) (by decide)).2.2⟩

/-- Claim C9: standard regime boosts of size 4 occur exactly at levels
5, 10, 15, 20 and nothing elsewhere; the gradual regime opens a partial
set of size 4 exactly at the even levels 2..20, completes (size 0,
completing flag) exactly at 3, 7, 13, 17, and reports nothing
elsewhere. -/
theorem detectAbilityBoosts_characterization (level : Nat)
    (hlvl : level ∈ List.range' 1 20) :
    (detectAbilityBoosts false level = ⟨true, 4, false, false⟩ ↔
      level ∈ [5, 10, 15, 20]) ∧
    (level ∉ [5, 10, 15, 20] →
      detectAbilityBoosts false level = ⟨false, 0, false, false⟩) ∧
    (detectAbilityBoosts true level = ⟨true, 4, true, false⟩ ↔
      level ∈ [2, 4, 6, 8, 10, 12, 14, 16, 18, 20]) ∧
    (detectAbilityBoosts true level = ⟨true, 0, true, true⟩ ↔
      level ∈ [3, 7, 13, 17]) ∧
    (level ∉ [2, 4, 6, 8, 10, 12, 14, 16, 18, 20] → level ∉ [3, 7, 13, 17] →
      detectAbilityBoosts true level = ⟨false, 0, false, false⟩) := by
  revert hlvl
  revert level
  decide

/-- Witness for C9 at level 5 (standard regime boost level). -/
theorem detectAbilityBoosts_characterization_witness :
    (5 : Nat) ∈ List.range' 1 20 ∧
    detectAbilityBoosts false 5 = ⟨true, 4, false, false⟩ :=
  ⟨by decide,
    ((detectAbilityBoosts_characterization 5 (by decide)).1).mpr (by decide)⟩

/-- Claim C8: membership in the filterFeats result is equivalent to the
conjunction of the trait-or-manual-list match, the level bound, not
being owned at effective maxTakable 1, and the destiny-level gate; plus
the owned maxTakable scenario from the spec. -/
theorem filterFeats_characterization
    (allFeats existingFeats : List Feat) (searchQueries : SearchQueries)
    (targetLevel : Nat) (feat : Feat) :
    (feat ∈ filterFeats allFeats searchQueries targetLevel existingFeats ↔
      feat ∈ allFeats ∧
      ((∃ t ∈ feat.traits.map normalizeString, t ∈ searchQueries.normalized) ∨
        feat.slug ∈ (loadManualArchetypeFeats.map Prod.snd).flatten) ∧
      feat.level ≤ targetLevel ∧
      ¬(strToLower feat.name ∈ existingFeats.map (fun f => strToLower f.name) ∧
        jsOrOneNat feat.maxTakable = 1) ∧
      ¬(targetLevel ≠ 12 ∧ "destiny" ∈ feat.traits.map normalizeString)) ∧
    filterFeats [sweepFeatUnset] (.single "Fighter") 1 [sweepFeatUnset] = [] ∧
    filterFeats [sweepFeatTakable3] (.single "Fighter") 1 [sweepFeatUnset] =
      [sweepFeatTakable3] := by
  refine ⟨?_, by decide, by decide⟩
  simp only [filterFeats, loadManualArchetypeFeats, List.mem_filter, List.map_nil,
    List.flatten_nil, List.not_mem_nil, or_false, Bool.and_eq_true, Bool.or_eq_true,
    List.any_eq_true, List.contains, List.elem_eq_mem, decide_eq_true_eq,
    Bool.not_eq_true', Bool.and_eq_false_imp, bne_iff_ne, ne_eq, List.contains_nil,
    beq_iff_eq, beq_eq_false_iff_ne,
    Bool.false_eq_true, and_false, or_false, decide_eq_false_iff_not]
  tauto

/-- Helper: a feat selection is truthy iff it stores a non-empty
string. -/
theorem featChosen_iff {o : Option String} :
    featChosen o = true ↔ ∃ s, s ≠ "" ∧ o = some s := by
  cases o <;> simp [featChosen]

/-- Counterexample to claim C4: a level whose only non-empty choice is
an ancestry-paragon feat selection is reported as having no choices,
though the claim's enumeration includes that category. -/
theorem hasChoicesForLevel_paragon_counterexample :
    hasChoicesForLevel paragonOnlyPlan 5 = false ∧
    specHasChoicesForLevel paragonOnlyPlan 5 = true := by
  exact ⟨by decide, by decide⟩

/-- Claim C4 as amended: hasChoicesForLevel is the non-empty-choice
predicate over the seven feat categories the source reads (ancestry
paragon excluded) together with the skill-increase, ability-boost and
per-rank spell collections. -/
theorem hasChoicesForLevel_amended (plan : Plan) (level : Nat) :
    hasChoicesForLevel plan level = true ↔
      ∃ c, getLevelChoices plan level = some c ∧ NonEmptyChoiceAmended c := by
  unfold hasChoicesForLevel
  cases h : getLevelChoices plan level with
  | none => simp [h]
  | some c =>
    simp only [h, Option.some.injEq, Bool.or_eq_true, featChosen_iff,
      Bool.not_eq_true', List.isEmpty_eq_false, List.any_eq_true,
      NonEmptyChoiceAmended, ne_eq, and_or_left, exists_or, or_assoc,
      exists_eq_left']

/-- Counterexample to claim C3: the plan snapshot and live rules differ
in freeArchetype (off in the plan, on live), yet the validator reports
compatible with no warnings — hard-rule mismatches are only surfaced in
the enabled-to-disabled direction. -/
theorem validateVariantRules_direction_counterexample :
    defaultVariantRules.freeArchetype ≠ freeArchetypeOnRules.freeArchetype ∧
    (validateVariantRulesCompatibility defaultVariantRules freeArchetypeOnRules).compatible
      = true ∧
    (validateVariantRulesCompatibility defaultVariantRules freeArchetypeOnRules).warnings
      = [] := by
  exact ⟨by decide, by decide, by decide⟩

/-- Claim C3 as amended: soft mismatches (gradualBoosts, ancestryParagon,
abp) are surfaced in either direction; hard mismatches (freeArchetype,
mythic, dualClass) are surfaced only when the plan expects the rule
enabled and it is currently disabled; compatible is false iff some
warning was surfaced. -/
theorem validateVariantRules_compatibility_amended (a b : VariantRules) :
    ((validateVariantRulesCompatibility a b).compatible = false ↔
      (validateVariantRulesCompatibility a b).warnings ≠ []) ∧
    ("Build plan expects Free Archetype but it is disabled" ∈
        (validateVariantRulesCompatibility a b).warnings ↔
      a.freeArchetype = true ∧ b.freeArchetype = false) ∧
    ("Build plan expects Mythic but it is disabled" ∈
        (validateVariantRulesCompatibility a b).warnings ↔
      a.mythic = "enabled" ∧ b.mythic ≠ "enabled") ∧
    ("Build plan expects Dual Class but it is disabled" ∈
        (validateVariantRulesCompatibility a b).warnings ↔
      a.dualClass = true ∧ b.dualClass = false) ∧
    ("Gradual Ability Boosts setting has changed" ∈
        (validateVariantRulesCompatibility a b).warnings ↔
      a.gradualBoosts ≠ b.gradualBoosts) ∧
    ("Ancestry Paragon setting has changed" ∈
        (validateVariantRulesCompatibility a b).warnings ↔
      a.ancestryParagon ≠ b.ancestryParagon) ∧
    ("Automatic Bonus Progression setting has changed" ∈
        (validateVariantRulesCompatibility a b).warnings ↔
      a.abp ≠ b.abp) := by
  by_cases h1 : (a.freeArchetype && !b.freeArchetype) = true <;>
  by_cases h2 : (a.mythic == "enabled" && b.mythic != "enabled") = true <;>
  by_cases h3 : (a.dualClass && !b.dualClass) = true <;>
  by_cases h4 : (a.gradualBoosts != b.gradualBoosts) = true <;>
  by_cases h5 : (a.ancestryParagon != b.ancestryParagon) = true <;>
  by_cases h6 : (a.abp != b.abp) = true <;>
  simp_all [validateVariantRulesCompatibility, Bool.and_eq_true, Bool.not_eq_true',
    bne_iff_ne, beq_iff_eq, Bool.not_eq_true]

/-- Counterexample to claim C2: under the default variant rules the
freshly created plan holds four undefined-valued choice keys per level,
which JSON export drops, so the reimported plan is not deep-equal to
the original. -/
theorem createNewPlan_roundTrip_counterexample :
    exportThenImport planDefault ≠ Except.ok planDefault := by
  intro h
  have h2 := congrArg (fun e =>
    match e with
    | Except.ok v => choiceKeyCount v
    | Except.error _ => 0) h
  exact absurd h2 (by decide)

/-- Claim C2 as amended: the reimported plan is the original with its
undefined-valued (disabled-category) choice keys dropped, and it is
deep-equal to the original when freeArchetype, ancestryParagon and
dualClass are enabled and mythic is 'enabled', so that no choice key
holds undefined. -/
theorem createNewPlan_roundTrip_amended (vr : VariantRules) (currentLevel : Nat) (now : Int) :
    exportThenImport (createNewPlan vr currentLevel now) =
      Except.ok (jsonRoundTrip (createNewPlan vr currentLevel now)) ∧
    (vr.freeArchetype = true → vr.ancestryParagon = true → vr.dualClass = true →
      vr.mythic = "enabled" →
      jsonRoundTrip (createNewPlan vr currentLevel now) = createNewPlan vr currentLevel now) := by
  constructor
  · rfl
  · intro hfa hap hdc hmy
    have hch : jsonRoundTrip (choicesValue vr) = choicesValue vr := by
      unfold choicesValue
      rw [hfa, hap, hdc, hmy]
      rfl
    obtain ⟨fs, hfs⟩ : ∃ fs, choicesValue vr = JValue.jobj fs := ⟨_, rfl⟩
    have hch2 : jsonRoundTripFields fs = fs := by
      have h2 := hch
      rw [hfs] at h2
      simpa [jsonRoundTrip] using h2
    have hkept : ∀ i, (levelValue vr currentLevel i).isUndefined = false := fun i => rfl
    have hlv : ∀ i, jsonRoundTrip (levelValue vr currentLevel i) =
        levelValue vr currentLevel i := by
      intro i
      unfold levelValue
      rw [hfs]
      simp [jsonRoundTrip, jsonRoundTripFields, JValue.isUndefined, hch2]
    have hfields : ∀ (l : List Nat),
        jsonRoundTripFields (l.map (fun i => (toString i, levelValue vr currentLevel i))) =
          l.map (fun i => (toString i, levelValue vr currentLevel i)) := by
      intro l
      induction l with
      | nil => rfl
      | cons x xs ih =>
        simp only [List.map_cons, jsonRoundTripFields, hkept x, Bool.false_eq_true,
          if_false, hlv x, ih]
    unfold createNewPlan
    rw [hmy]
    simp only [if_pos]
    generalize List.range' 1 20 = levelNums
    simp only [jsonRoundTrip, jsonRoundTripFields, JValue.isUndefined, mythicTiersValue,
      Bool.false_eq_true, if_false, hfields levelNums]

/-- Witness for the amended C2 with every optional category enabled. -/
theorem createNewPlan_roundTrip_amended_witness :
    allOnVariantRules.freeArchetype = true ∧ allOnVariantRules.ancestryParagon = true ∧
    allOnVariantRules.dualClass = true ∧ allOnVariantRules.mythic = "enabled" ∧
    jsonRoundTrip (createNewPlan allOnVariantRules 1 0) =
      createNewPlan allOnVariantRules 1 0 :=
  ⟨rfl, rfl, rfl, rfl,
    (createNewPlan_roundTrip_amended allOnVariantRules 1 0).2 rfl rfl rfl rfl⟩
